import Mathlib

/-!
Verification of the song-generator tool server (`src/main.py`).

The two generation tools (`generate_song_base64`, `generate_song_file`) and the
`validate` tool are embedded as total Lean functions.  Effects are made explicit:

* the environment credential `ELEVENLABS_API_KEY` is an `Option String`
  parameter (Python truthiness: `None` and `""` are falsy);
* the upstream ElevenLabs client is an oracle (`Upstream`) giving the result of
  the voice-list probe (`client.voices.get_all()`) and of the synthesis call
  (`client.generate(...)`, a list of binary chunks, as a function of the text
  sent), each either a value or a raised exception (`PyExc`, carrying the
  Python type name and message);
* the filesystem is an oracle (`FS`): the temp directory, the outcome of the
  `open`/`write`, and the post-write `os.path.exists` answer.  The model is
  sequential and non-interfered: after a completed write of `audio_bytes`,
  `os.path.getsize` returns the length of the bytes just written;
* `datetime.now()` is a `DateTime` parameter.

Each tool returns its result string paired with the trace of outbound network
operations, in the order the code performs them, so that claims of the form
"returns ... before any network call" are statable.

Python string primitives used by the code (`str.strip()`, `str.split()`,
`s[:n]`, `str * n`, `base64.b64encode`) are modelled by structurally recursive
functions over the character list (ASCII whitespace; Python additionally strips
some rarer Unicode whitespace, which no claim depends on).
-/

/-- A raised Python exception: its type name (`type(e).__name__`) and its
message (`str(e)`). -/
structure PyExc where
  name : String
  msg : String
deriving DecidableEq

/-- An outbound network operation performed by a tool call. -/
inductive NetOp
  /-- The connectivity probe `client.voices.get_all()`. -/
  | probe
  /-- The synthesis request `client.generate(...)`. -/
  | synth
deriving DecidableEq

/-- Oracle for the upstream ElevenLabs client: the probe either returns a
voice count or raises, and the synthesis call either returns the lazily
produced list of binary chunks (bytes as `Nat`) or raises.  The synthesis
outcome may depend on the text sent. -/
structure Upstream where
  probeRes : Except PyExc Nat
  synthRes : String → Except PyExc (List (List Nat))

/-- Oracle for the filesystem seen by `generate_song_file`:
`tempfile.gettempdir()`, the outcome of opening/writing the file, and the
post-write `os.path.exists` answer. -/
structure FS where
  tempDir : String
  writeRes : Except PyExc Unit
  existsAfter : Bool

/-- The fields of `datetime.now()` used by `strftime("%Y%m%d_%H%M%S")`. -/
structure DateTime where
  year : Nat
  month : Nat
  day : Nat
  hour : Nat
  minute : Nat
  second : Nat

/-- Python truthiness of the optional `ELEVENLABS_API_KEY` environment value:
`None` and the empty string are falsy. -/
def keyTruthy : Option String → Bool
  | none => false
  | some s => !(s == "")

/-- `main.py` lines 23-25: the module-level `client` is constructed exactly
when `ELEVENLABS_API_KEY` is truthy, so the client is initialized iff the key
is truthy. -/
def clientInitialized (k : Option String) : Bool := keyTruthy k

/-- Python `str.strip()` (no argument): remove leading and trailing
whitespace. -/
def pyStrip (s : String) : String :=
  String.mk (((s.data.dropWhile Char.isWhitespace).reverse.dropWhile
      Char.isWhitespace).reverse)

/-- Helper for `pyWords`: scan the characters, accumulating the current word
(reversed) and emitting it at each whitespace run. -/
def wordsAux : List Char → List Char → List String
  | [], acc => if acc.isEmpty then [] else [String.mk acc.reverse]
  | c :: cs, acc =>
    if c.isWhitespace then
      if acc.isEmpty then wordsAux cs [] else String.mk acc.reverse :: wordsAux cs []
    else wordsAux cs (c :: acc)

/-- Python `str.split()` (no argument): split on runs of whitespace, with no
empty strings in the result. -/
def pyWords (s : String) : List String := wordsAux s.data []

/-- Python `s[:n]` on a string: the first `n` characters (all of them when the
string is shorter). -/
def pyTake (s : String) (n : Nat) : String := String.mk (s.data.take n)

/-- Python `s * n` on a string: `n` concatenated copies. -/
def pyStrRepeat (s : String) : Nat → String
  | 0 => ""
  | n + 1 => s ++ pyStrRepeat s n

/-- `main.py` lines 63-67: the lyrics normalization in `generate_song_base64`.
`processed_lyrics = lyrics.strip()`; if it has fewer than 5
whitespace-separated words it becomes `f"♪ {processed_lyrics} ♪\n" * 2`. -/
def processedLyrics_b64 (lyrics : String) : String :=
  let p := pyStrip lyrics
  if (pyWords p).length < 5 then pyStrRepeat ("♪ " ++ p ++ " ♪\n") 2 else p

/-- `main.py` lines 128-130: the lyrics normalization in `generate_song_file`,
textually identical to the one in `generate_song_base64`. -/
def processedLyrics_file (lyrics : String) : String :=
  let p := pyStrip lyrics
  if (pyWords p).length < 5 then pyStrRepeat ("♪ " ++ p ++ " ♪\n") 2 else p

/-- The standard base64 alphabet used by `base64.b64encode`. -/
def b64Table : List Char :=
  "ABCDEFGHIJKLMNOPQRSTUVWXYZabcdefghijklmnopqrstuvwxyz0123456789+/".data

/-- The base64 character for a 6-bit value. -/
def b64Char (n : Nat) : Char := b64Table.getD n 'A'

/-- Standard base64 of a byte list (bytes as `Nat < 256`), three bytes at a
time with `=` padding, as `base64.b64encode` produces. -/
def b64encodeList : List Nat → List Char
  | [] => []
  | [a] => [b64Char (a / 4), b64Char (a % 4 * 16), '=', '=']
  | [a, b] => [b64Char (a / 4), b64Char (a % 4 * 16 + b / 16), b64Char (b % 16 * 4), '=']
  | a :: b :: c :: rest =>
      b64Char (a / 4) :: b64Char (a % 4 * 16 + b / 16) ::
      b64Char (b % 16 * 4 + c / 64) :: b64Char (c % 64) :: b64encodeList rest

/-- `base64.b64encode(...).decode('utf-8')` as a string. -/
def b64encode (bs : List Nat) : String := String.mk (b64encodeList bs)

/-- Two-digit zero-padded decimal, as `strftime` renders `%m %d %H %M %S`. -/
def pad2 (n : Nat) : String := if n < 10 then "0" ++ toString n else toString n

/-- `datetime.now().strftime("%Y%m%d_%H%M%S")` (`main.py` line 147): the
year in decimal followed by zero-padded month, day, then `_`, then zero-padded
hour, minute, second. -/
def strftimeTS (dt : DateTime) : String :=
  toString dt.year ++ pad2 dt.month ++ pad2 dt.day ++ "_" ++
    pad2 dt.hour ++ pad2 dt.minute ++ pad2 dt.second

/-- POSIX `os.path.join` for the two-argument case used at `main.py`
line 150: if `b` is absolute (starts with `/`) it wins; otherwise a `/`
separator is inserted unless `a` is empty or already ends with `/`. -/
def ospathjoin (a b : String) : String :=
  if b.data.head? = some '/' then b
  else if a = "" ∨ a.data.getLast? = some '/' then a ++ b
  else a ++ "/" ++ b

/-- `main.py` lines 34-36: the `validate` tool returns
`MY_NUMBER or "No phone number configured"`; `MY_NUMBER` is
`os.getenv("MY_NUMBER")`, so `None` (unset) and `""` are both falsy and hit
the fallback. -/
def validate (myNumber : Option String) : String :=
  match myNumber with
  | none => "No phone number configured"
  | some s => if s = "" then "No phone number configured" else s

/-- `main.py` lines 44-111: the `generate_song_base64` tool.  Returns the
result string paired with the trace of network operations performed, in
order. -/
def generate_song_base64 (apiKey : Option String) (up : Upstream)
    (lyrics : String) : String × List NetOp :=
  if keyTruthy apiKey = false then
    ("❌ Error: ELEVENLABS_API_KEY not found in environment variables. Please check your .env file.",
      [])
  else if clientInitialized apiKey = false then
    ("❌ Error: ElevenLabs client not initialized", [])
  else if lyrics = "" ∨ pyStrip lyrics = "" then
    ("❌ Error: No lyrics provided", [])
  else
    let processed_lyrics := processedLyrics_b64 lyrics
    match up.probeRes with
    | Except.error api_error =>
        ("❌ Error connecting to ElevenLabs API: " ++ api_error.msg, [NetOp.probe])
    | Except.ok _ =>
      match up.synthRes processed_lyrics with
      | Except.error gen_error =>
          ("❌ Error during audio generation: " ++ gen_error.name ++ ": " ++ gen_error.msg,
            [NetOp.probe, NetOp.synth])
      | Except.ok chunks =>
        let audio_bytes := chunks.flatten
        if audio_bytes.length = 0 then
          ("❌ Error: No audio data received from API", [NetOp.probe, NetOp.synth])
        else
          let audio_base64 := b64encode audio_bytes
          ("✅ Song generated successfully!\n🎵 Lyrics: " ++ pyTake lyrics 50 ++
            "...\n📊 Audio size: " ++ toString audio_bytes.length ++
            " bytes\n🔗 Base64 audio data:\ndata:audio/mpeg;base64," ++
            pyTake audio_base64 100 ++ "...",
            [NetOp.probe, NetOp.synth])

/-- `main.py` lines 114-163: the `generate_song_file` tool.  Returns the
result string paired with the trace of network operations performed.  Note the
source performs no empty-lyrics validation and no empty-buffer check here; the
single outer `except` turns any raised exception into
`"❌ Error: {type}: {message}"`. -/
def generate_song_file (apiKey : Option String) (up : Upstream) (fs : FS)
    (dt : DateTime) (lyrics : String) : String × List NetOp :=
  if keyTruthy apiKey = false then
    ("❌ Error: ELEVENLABS_API_KEY not configured", [])
  else if clientInitialized apiKey = false then
    ("❌ Error: ElevenLabs client not initialized", [])
  else
    let processed_lyrics := processedLyrics_file lyrics
    match up.synthRes processed_lyrics with
    | Except.error e => ("❌ Error: " ++ e.name ++ ": " ++ e.msg, [NetOp.synth])
    | Except.ok chunks =>
      let audio_bytes := chunks.flatten
      let audio_path := ospathjoin fs.tempDir ("song_" ++ strftimeTS dt ++ ".mp3")
      match fs.writeRes with
      | Except.error e => ("❌ Error: " ++ e.name ++ ": " ++ e.msg, [NetOp.synth])
      | Except.ok _ =>
        if fs.existsAfter then
          ("✅ Song saved to file!\n📁 Path: " ++ audio_path ++ "\n📊 Size: " ++
            toString audio_bytes.length ++ " bytes\n🎵 Lyrics: " ++
            pyTake lyrics 50 ++ "...",
            [NetOp.synth])
        else
          ("❌ Error: File was not created", [NetOp.synth])

/-- The first character of a string (used to state "prefixed with a
marker"). -/
def firstChar (s : String) : Char := s.data.headD ' '

theorem pyStrRepeat_two (s : String) : pyStrRepeat s 2 = s ++ s := by
  show s ++ (s ++ "") = s ++ s
  rw [String.append_empty]

theorem ne_empty_append (a b : String) (h : a ≠ "") : a ++ b ≠ "" := by
  intro hc
  apply h
  have hd : a.data ++ b.data = ([] : List Char) := by
    rw [← String.data_append, hc]
  cases a with
  | mk da =>
    have : da = [] := (List.append_eq_nil.mp hd).1
    rw [this]

theorem firstChar_lit (a b : String) (h : a ≠ "") :
    firstChar (a ++ b) = firstChar a := by
  cases a with
  | mk da =>
    cases da with
    | nil => exact absurd rfl h
    | cons c cs =>
      show ((String.mk (c :: cs) ++ b).data).headD ' ' = _
      rw [String.data_append]
      rfl

theorem fc3 (a b c d : String) (h : a ≠ "") :
    firstChar (a ++ b ++ c ++ d) = firstChar a := by
  rw [firstChar_lit _ _ (ne_empty_append _ _ (ne_empty_append _ _ h)),
    firstChar_lit _ _ (ne_empty_append _ _ h), firstChar_lit _ _ h]

theorem fc6 (a b c d e f g : String) (h : a ≠ "") :
    firstChar (a ++ b ++ c ++ d ++ e ++ f ++ g) = firstChar a := by
  have h2 := ne_empty_append _ b h
  have h3 := ne_empty_append _ c h2
  have h4 := ne_empty_append _ d h3
  have h5 := ne_empty_append _ e h4
  have h6 := ne_empty_append _ f h5
  rw [firstChar_lit _ _ h6, firstChar_lit _ _ h5, firstChar_lit _ _ h4,
    firstChar_lit _ _ h3, firstChar_lit _ _ h2, firstChar_lit _ _ h]

/-- C10: the `validate` tool returns the fallback literal
`"No phone number configured"` when the phone-number environment variable is
unset and also when it is set to the empty string; every non-empty configured
value is returned unchanged. -/
theorem claim_C10 :
    validate none = "No phone number configured" ∧
    validate (some "") = "No phone number configured" ∧
    ∀ s : String, s ≠ "" → validate (some s) = s := by
  refine ⟨rfl, by decide, ?_⟩
  intro s hs
  simp [validate, hs]

theorem claim_C10_witness : validate (some "+15551234567") = "+15551234567" :=
  claim_C10.2.2 "+15551234567" (by decide)

/-- C9: the lyrics-normalization logic duplicated in the two entry points is
extensionally equal: both tools compute the same `processed_lyrics` from any
lyrics string. -/
theorem claim_C9 :
    ∀ lyrics : String, processedLyrics_b64 lyrics = processedLyrics_file lyrics :=
  fun _ => rfl

/-- C4: for every lyrics string with non-empty trim, normalization first
trims; with fewer than 5 whitespace-separated words the result is two
repetitions of the trimmed text wrapped as `♪ <text> ♪` each followed by a
line break, and with 5 or more words it is the trimmed string unchanged; the
logic is identical in both tools. -/
theorem claim_C4 (lyrics : String) (h : pyStrip lyrics ≠ "") :
    processedLyrics_b64 lyrics = processedLyrics_file lyrics ∧
    ((pyWords (pyStrip lyrics)).length < 5 →
      processedLyrics_b64 lyrics =
        ("♪ " ++ pyStrip lyrics ++ " ♪\n") ++ ("♪ " ++ pyStrip lyrics ++ " ♪\n")) ∧
    (5 ≤ (pyWords (pyStrip lyrics)).length →
      processedLyrics_b64 lyrics = pyStrip lyrics) := by
  refine ⟨rfl, ?_, ?_⟩
  · intro hlt
    simp [processedLyrics_b64, hlt, pyStrRepeat_two]
  · intro hge
    simp [processedLyrics_b64, Nat.not_lt.mpr hge]

theorem claim_C4_witness :
    pyStrip "hello" ≠ "" ∧ processedLyrics_b64 "hello" = "♪ hello ♪\n♪ hello ♪\n" := by
  refine ⟨by decide, ?_⟩
  have h := (claim_C4 "hello" (by decide)).2.1 (by decide)
  rw [h]
  decide

/-- C3: if the API credential is not configured (unset, or empty hence falsy),
both generation tools return their `ConfigurationError` failure string with an
empty network trace — no network I/O is attempted and no exception escapes. -/
theorem claim_C3 (apiKey : Option String) (up : Upstream) (fs : FS)
    (dt : DateTime) (lyrics : String) (h : keyTruthy apiKey = false) :
    generate_song_base64 apiKey up lyrics =
      ("❌ Error: ELEVENLABS_API_KEY not found in environment variables. Please check your .env file.",
        []) ∧
    generate_song_file apiKey up fs dt lyrics =
      ("❌ Error: ELEVENLABS_API_KEY not configured", []) := by
  constructor
  · simp [generate_song_base64, h]
  · simp [generate_song_file, h]

theorem claim_C3_witness :
    generate_song_base64 none ⟨Except.ok 0, fun _ => Except.ok []⟩ "some lyrics" =
      ("❌ Error: ELEVENLABS_API_KEY not found in environment variables. Please check your .env file.",
        []) ∧
    generate_song_file none ⟨Except.ok 0, fun _ => Except.ok []⟩
        ⟨"/tmp", Except.ok (), true⟩ ⟨2025, 10, 12, 0, 0, 0⟩ "some lyrics" =
      ("❌ Error: ELEVENLABS_API_KEY not configured", []) :=
  claim_C3 none ⟨Except.ok 0, fun _ => Except.ok []⟩ ⟨"/tmp", Except.ok (), true⟩
    ⟨2025, 10, 12, 0, 0, 0⟩ "some lyrics" rfl

/-- C1 counterexample: with the credential configured and empty lyrics,
`generate_song_file` does not return the EmptyInputError failure string and it
performs a synthesis network call — the claim "for every generation tool ...
returns an EmptyInputError failure string ... before any network call" is
false for the file tool, which has no empty-input check. -/
theorem claim_C1_counterexample :
    (generate_song_file (some "key") ⟨Except.ok 1, fun _ => Except.ok [[1, 2, 3]]⟩
        ⟨"/tmp", Except.ok (), true⟩ ⟨2025, 10, 12, 14, 30, 5⟩ "").1 ≠
      "❌ Error: No lyrics provided" ∧
    NetOp.synth ∈
      (generate_song_file (some "key") ⟨Except.ok 1, fun _ => Except.ok [[1, 2, 3]]⟩
        ⟨"/tmp", Except.ok (), true⟩ ⟨2025, 10, 12, 14, 30, 5⟩ "").2 := by
  constructor
  · decide
  · decide

/-- C1 (amended): with the API credential configured, `generate_song_base64`
returns the EmptyInputError failure string with an empty network trace
whenever the lyrics trim to the empty string; `generate_song_file` performs no
empty-input validation and always proceeds to the synthesis network call. -/
theorem claim_C1 (apiKey : Option String) (up : Upstream) (fs : FS)
    (dt : DateTime) (lyrics : String)
    (hkey : keyTruthy apiKey = true) (hstrip : pyStrip lyrics = "") :
    generate_song_base64 apiKey up lyrics = ("❌ Error: No lyrics provided", []) ∧
    NetOp.synth ∈ (generate_song_file apiKey up fs dt lyrics).2 := by
  constructor
  · simp [generate_song_base64, hkey, clientInitialized, hstrip]
  · rcases hs : up.synthRes (processedLyrics_file lyrics) with e | chunks
    · simp [generate_song_file, hkey, clientInitialized, hs]
    · rcases hw : fs.writeRes with e | u
      · simp [generate_song_file, hkey, clientInitialized, hs, hw]
      · rcases hx : fs.existsAfter <;>
          simp [generate_song_file, hkey, clientInitialized, hs, hw, hx]

theorem claim_C1_witness :
    generate_song_base64 (some "key") ⟨Except.ok 1, fun _ => Except.ok [[1]]⟩ "   " =
      ("❌ Error: No lyrics provided", []) ∧
    NetOp.synth ∈
      (generate_song_file (some "key") ⟨Except.ok 1, fun _ => Except.ok [[1]]⟩
        ⟨"/tmp", Except.ok (), true⟩ ⟨2025, 10, 12, 14, 30, 5⟩ "   ").2 :=
  claim_C1 (some "key") ⟨Except.ok 1, fun _ => Except.ok [[1]]⟩
    ⟨"/tmp", Except.ok (), true⟩ ⟨2025, 10, 12, 14, 30, 5⟩ "   " (by decide) (by decide)

/-- C2 counterexample: with a zero-length synthesized buffer,
`generate_song_file` returns a success report (size 0 bytes) after writing an
empty file — the claim "for both output strategies ... returns an
EmptyAudioError failure string and never a success report" is false for the
file strategy, which has no empty-buffer check. -/
theorem claim_C2_counterexample :
    (generate_song_file (some "key") ⟨Except.ok 1, fun _ => Except.ok []⟩
        ⟨"/tmp", Except.ok (), true⟩ ⟨2025, 10, 12, 14, 30, 5⟩
        "a song about rivers and mountains").1 =
      "✅ Song saved to file!\n📁 Path: /tmp/song_20251012_143005.mp3\n📊 Size: 0 bytes\n🎵 Lyrics: a song about rivers and mountains..." := by
  decide

/-- C2 (amended): in `generate_song_base64`, if the fully drained and
concatenated audio buffer has zero length the call returns the EmptyAudioError
failure string and never a success report; `generate_song_file` performs no
such check and reports success for a zero-length buffer. -/
theorem claim_C2 (apiKey : Option String) (up : Upstream) (lyrics : String)
    (n : Nat) (chunks : List (List Nat))
    (hkey : keyTruthy apiKey = true) (hlyr : pyStrip lyrics ≠ "")
    (hp : up.probeRes = Except.ok n)
    (hs : up.synthRes (processedLyrics_b64 lyrics) = Except.ok chunks)
    (hz : chunks.flatten.length = 0) :
    generate_song_base64 apiKey up lyrics =
      ("❌ Error: No audio data received from API", [NetOp.probe, NetOp.synth]) := by
  have hne : lyrics ≠ "" := fun h0 => hlyr (by rw [h0]; rfl)
  simp [generate_song_base64, hkey, clientInitialized, hne, hlyr, hp, hs, hz]

theorem claim_C2_witness :
    generate_song_base64 (some "key") ⟨Except.ok 2, fun _ => Except.ok [[], []]⟩ "hello" =
      ("❌ Error: No audio data received from API", [NetOp.probe, NetOp.synth]) :=
  claim_C2 (some "key") ⟨Except.ok 2, fun _ => Except.ok [[], []]⟩ "hello" 2 [[], []]
    (by decide) (by decide) rfl rfl (by decide)

/-- C6: when the file strategy succeeds (synthesis returned, write completed,
path present post-write), the reported path is `song_<YYYYMMDD_HHMMSS>.mp3`
joined onto the platform temp directory and the reported byte size is the
audio buffer's length; when the path is absent after the write the call
returns the FileWriteVerificationError failure string instead. -/
theorem claim_C6 (apiKey : Option String) (up : Upstream) (fs : FS)
    (dt : DateTime) (lyrics : String) (chunks : List (List Nat))
    (hkey : keyTruthy apiKey = true)
    (hs : up.synthRes (processedLyrics_file lyrics) = Except.ok chunks)
    (hw : fs.writeRes = Except.ok ()) :
    (fs.existsAfter = true →
      generate_song_file apiKey up fs dt lyrics =
        ("✅ Song saved to file!\n📁 Path: " ++
            ospathjoin fs.tempDir ("song_" ++ strftimeTS dt ++ ".mp3") ++
            "\n📊 Size: " ++ toString chunks.flatten.length ++
            " bytes\n🎵 Lyrics: " ++ pyTake lyrics 50 ++ "...",
          [NetOp.synth])) ∧
    (fs.existsAfter = false →
      generate_song_file apiKey up fs dt lyrics =
        ("❌ Error: File was not created", [NetOp.synth])) := by
  constructor <;> intro hx <;>
    simp [generate_song_file, hkey, clientInitialized, hs, hw, hx]

theorem claim_C6_witness :
    (generate_song_file (some "key") ⟨Except.ok 1, fun _ => Except.ok [[9, 8, 7, 6]]⟩
        ⟨"/tmp", Except.ok (), true⟩ ⟨2025, 10, 12, 14, 30, 5⟩ "hello").1 =
      "✅ Song saved to file!\n📁 Path: /tmp/song_20251012_143005.mp3\n📊 Size: 4 bytes\n🎵 Lyrics: hello..." := by
  have h := (claim_C6 (some "key") ⟨Except.ok 1, fun _ => Except.ok [[9, 8, 7, 6]]⟩
      ⟨"/tmp", Except.ok (), true⟩ ⟨2025, 10, 12, 14, 30, 5⟩ "hello" [[9, 8, 7, 6]]
      (by decide) rfl rfl).1 rfl
  rw [h]
  decide

/-- C7: when the inline strategy succeeds, its report string is exactly the
template containing the first 50 characters of the original (un-normalized)
lyrics input, the total byte size of the audio buffer, and a
`data:audio/mpeg;base64,` string truncated to the first 100 characters of the
base64 encoding of the buffer. -/
theorem claim_C7 (apiKey : Option String) (up : Upstream) (lyrics : String)
    (n : Nat) (chunks : List (List Nat))
    (hkey : keyTruthy apiKey = true) (hlyr : pyStrip lyrics ≠ "")
    (hp : up.probeRes = Except.ok n)
    (hs : up.synthRes (processedLyrics_b64 lyrics) = Except.ok chunks)
    (hz : chunks.flatten.length ≠ 0) :
    (generate_song_base64 apiKey up lyrics).1 =
      "✅ Song generated successfully!\n🎵 Lyrics: " ++ pyTake lyrics 50 ++
        "...\n📊 Audio size: " ++ toString chunks.flatten.length ++
        " bytes\n🔗 Base64 audio data:\ndata:audio/mpeg;base64," ++
        pyTake (b64encode chunks.flatten) 100 ++ "..." := by
  have hne : lyrics ≠ "" := fun h0 => hlyr (by rw [h0]; rfl)
  have hz2 : (List.map List.length chunks).sum ≠ 0 := by simpa using hz
  simp [generate_song_base64, hkey, clientInitialized, hne, hlyr, hp, hs, hz2]

theorem claim_C7_witness :
    (generate_song_base64 (some "key") ⟨Except.ok 1, fun _ => Except.ok [[77, 97, 110]]⟩
        "hello world how are you").1 =
      "✅ Song generated successfully!\n🎵 Lyrics: hello world how are you...\n📊 Audio size: 3 bytes\n🔗 Base64 audio data:\ndata:audio/mpeg;base64,TWFu..." := by
  have h := claim_C7 (some "key") ⟨Except.ok 1, fun _ => Except.ok [[77, 97, 110]]⟩
    "hello world how are you" 1 [[77, 97, 110]] (by decide) (by decide) rfl rfl (by decide)
  rw [h]
  decide

/-- C8: in `generate_song_base64` a failing connectivity probe yields the
UpstreamConnectionError failure string with a trace containing only the probe
(no synthesis request is issued); moreover every possible network trace of the
tool is `[]`, `[probe]` or `[probe, synth]`, so the probe always precedes any
synthesis. -/
theorem claim_C8 :
    (∀ (apiKey : Option String) (up : Upstream) (lyrics : String) (e : PyExc),
      keyTruthy apiKey = true → pyStrip lyrics ≠ "" →
      up.probeRes = Except.error e →
      generate_song_base64 apiKey up lyrics =
        ("❌ Error connecting to ElevenLabs API: " ++ e.msg, [NetOp.probe])) ∧
    (∀ (apiKey : Option String) (up : Upstream) (lyrics : String),
      (generate_song_base64 apiKey up lyrics).2 = [] ∨
      (generate_song_base64 apiKey up lyrics).2 = [NetOp.probe] ∨
      (generate_song_base64 apiKey up lyrics).2 = [NetOp.probe, NetOp.synth]) := by
  constructor
  · intro apiKey up lyrics e hkey hlyr hp
    have hne : lyrics ≠ "" := fun h0 => hlyr (by rw [h0]; rfl)
    simp [generate_song_base64, hkey, clientInitialized, hne, hlyr, hp]
  · intro apiKey up lyrics
    rcases hkey : keyTruthy apiKey with _ | _
    · left
      simp [generate_song_base64, hkey]
    · by_cases hc : lyrics = "" ∨ pyStrip lyrics = ""
      · left
        simp [generate_song_base64, hkey, clientInitialized, hc]
      · rcases hp : up.probeRes with e | n
        · right; left
          simp [generate_song_base64, hkey, clientInitialized, hc, hp]
        · rcases hs : up.synthRes (processedLyrics_b64 lyrics) with e | chunks
          · right; right
            simp [generate_song_base64, hkey, clientInitialized, hc, hp, hs]
          · right; right
            by_cases hz : (List.map List.length chunks).sum = 0 <;>
              simp [generate_song_base64, hkey, clientInitialized, hc, hp, hs, hz]

theorem claim_C8_witness :
    generate_song_base64 (some "key")
        ⟨Except.error ⟨"ApiError", "connection refused"⟩, fun _ => Except.ok [[1]]⟩
        "hello" =
      ("❌ Error connecting to ElevenLabs API: connection refused", [NetOp.probe]) := by
  have h := claim_C8.1 (some "key")
    ⟨Except.error ⟨"ApiError", "connection refused"⟩, fun _ => Except.ok [[1]]⟩
    "hello" ⟨"ApiError", "connection refused"⟩ (by decide) (by decide) rfl
  rw [h]
  decide

/-- C5: every tool result string begins with the success marker `✅` or the
failure marker `❌` — in the model the tools are total functions into strings,
so no exception reaches the transport layer — and an exception raised by the
synthesis request is re-classified into a failure string carrying the
underlying exception's type name and message in both generation paths. -/
theorem claim_C5 :
    (∀ (apiKey : Option String) (up : Upstream) (lyrics : String),
      firstChar (generate_song_base64 apiKey up lyrics).1 = '✅' ∨
      firstChar (generate_song_base64 apiKey up lyrics).1 = '❌') ∧
    (∀ (apiKey : Option String) (up : Upstream) (fs : FS) (dt : DateTime)
        (lyrics : String),
      firstChar (generate_song_file apiKey up fs dt lyrics).1 = '✅' ∨
      firstChar (generate_song_file apiKey up fs dt lyrics).1 = '❌') ∧
    (∀ (apiKey : Option String) (up : Upstream) (lyrics : String) (n : Nat) (e : PyExc),
      keyTruthy apiKey = true → pyStrip lyrics ≠ "" →
      up.probeRes = Except.ok n →
      up.synthRes (processedLyrics_b64 lyrics) = Except.error e →
      (generate_song_base64 apiKey up lyrics).1 =
        "❌ Error during audio generation: " ++ e.name ++ ": " ++ e.msg) ∧
    (∀ (apiKey : Option String) (up : Upstream) (fs : FS) (dt : DateTime)
        (lyrics : String) (e : PyExc),
      keyTruthy apiKey = true →
      up.synthRes (processedLyrics_file lyrics) = Except.error e →
      (generate_song_file apiKey up fs dt lyrics).1 =
        "❌ Error: " ++ e.name ++ ": " ++ e.msg) := by
  refine ⟨?_, ?_, ?_, ?_⟩
  · intro apiKey up lyrics
    rcases hkey : keyTruthy apiKey with _ | _
    · right
      have hr : (generate_song_base64 apiKey up lyrics).1 =
          "❌ Error: ELEVENLABS_API_KEY not found in environment variables. Please check your .env file." := by
        simp [generate_song_base64, hkey]
      rw [hr]; decide
    · by_cases hc : lyrics = "" ∨ pyStrip lyrics = ""
      · right
        have hr : (generate_song_base64 apiKey up lyrics).1 =
            "❌ Error: No lyrics provided" := by
          simp [generate_song_base64, hkey, clientInitialized, hc]
        rw [hr]; decide
      · rcases hp : up.probeRes with e | n
        · right
          have hr : (generate_song_base64 apiKey up lyrics).1 =
              "❌ Error connecting to ElevenLabs API: " ++ e.msg := by
            simp [generate_song_base64, hkey, clientInitialized, hc, hp]
          rw [hr, firstChar_lit _ _ (by decide)]; decide
        · rcases hs : up.synthRes (processedLyrics_b64 lyrics) with e | chunks
          · right
            have hr : (generate_song_base64 apiKey up lyrics).1 =
                "❌ Error during audio generation: " ++ e.name ++ ": " ++ e.msg := by
              simp [generate_song_base64, hkey, clientInitialized, hc, hp, hs]
            rw [hr, fc3 _ _ _ _ (by decide)]; decide
          · by_cases hz : (List.map List.length chunks).sum = 0
            · right
              have hr : (generate_song_base64 apiKey up lyrics).1 =
                  "❌ Error: No audio data received from API" := by
                simp [generate_song_base64, hkey, clientInitialized, hc, hp, hs, hz]
              rw [hr]; decide
            · left
              have hr : (generate_song_base64 apiKey up lyrics).1 =
                  "✅ Song generated successfully!\n🎵 Lyrics: " ++ pyTake lyrics 50 ++
                    "...\n📊 Audio size: " ++ toString (List.map List.length chunks).sum ++
                    " bytes\n🔗 Base64 audio data:\ndata:audio/mpeg;base64," ++
                    pyTake (b64encode chunks.flatten) 100 ++ "..." := by
                simp [generate_song_base64, hkey, clientInitialized, hc, hp, hs, hz]
              rw [hr, fc6 _ _ _ _ _ _ _ (by decide)]; decide
  · intro apiKey up fs dt lyrics
    rcases hkey : keyTruthy apiKey with _ | _
    · right
      have hr : (generate_song_file apiKey up fs dt lyrics).1 =
          "❌ Error: ELEVENLABS_API_KEY not configured" := by
        simp [generate_song_file, hkey]
      rw [hr]; decide
    · rcases hs : up.synthRes (processedLyrics_file lyrics) with e | chunks
      · right
        have hr : (generate_song_file apiKey up fs dt lyrics).1 =
            "❌ Error: " ++ e.name ++ ": " ++ e.msg := by
          simp [generate_song_file, hkey, clientInitialized, hs]
        rw [hr, fc3 _ _ _ _ (by decide)]; decide
      · rcases hw : fs.writeRes with e | u
        · right
          have hr : (generate_song_file apiKey up fs dt lyrics).1 =
              "❌ Error: " ++ e.name ++ ": " ++ e.msg := by
            simp [generate_song_file, hkey, clientInitialized, hs, hw]
          rw [hr, fc3 _ _ _ _ (by decide)]; decide
        · rcases hx : fs.existsAfter with _ | _
          · right
            have hr : (generate_song_file apiKey up fs dt lyrics).1 =
                "❌ Error: File was not created" := by
              simp [generate_song_file, hkey, clientInitialized, hs, hw, hx]
            rw [hr]; decide
          · left
            have hr : (generate_song_file apiKey up fs dt lyrics).1 =
                "✅ Song saved to file!\n📁 Path: " ++
                  ospathjoin fs.tempDir ("song_" ++ strftimeTS dt ++ ".mp3") ++
                  "\n📊 Size: " ++ toString (List.map List.length chunks).sum ++
                  " bytes\n🎵 Lyrics: " ++ pyTake lyrics 50 ++ "..." := by
              simp [generate_song_file, hkey, clientInitialized, hs, hw, hx]
            rw [hr, fc6 _ _ _ _ _ _ _ (by decide)]; decide
  · intro apiKey up lyrics n e hkey hlyr hp hs
    have hne : lyrics ≠ "" := fun h0 => hlyr (by rw [h0]; rfl)
    simp [generate_song_base64, hkey, clientInitialized, hne, hlyr, hp, hs]
  · intro apiKey up fs dt lyrics e hkey hs
    simp [generate_song_file, hkey, clientInitialized, hs]

theorem claim_C5_witness :
    (generate_song_base64 (some "key")
        ⟨Except.ok 1, fun _ => Except.error ⟨"ApiError", "quota exceeded"⟩⟩ "hello").1 =
      "❌ Error during audio generation: ApiError: quota exceeded" ∧
    (generate_song_file (some "key")
        ⟨Except.ok 1, fun _ => Except.error ⟨"ApiError", "quota exceeded"⟩⟩
        ⟨"/tmp", Except.ok (), true⟩ ⟨2025, 10, 12, 14, 30, 5⟩ "hello").1 =
      "❌ Error: ApiError: quota exceeded" := by
  constructor
  · have h := claim_C5.2.2.1 (some "key")
      ⟨Except.ok 1, fun _ => Except.error ⟨"ApiError", "quota exceeded"⟩⟩ "hello" 1
      ⟨"ApiError", "quota exceeded"⟩ (by decide) (by decide) rfl rfl
    rw [h]; decide
  · have h := claim_C5.2.2.2 (some "key")
      ⟨Except.ok 1, fun _ => Except.error ⟨"ApiError", "quota exceeded"⟩⟩
      ⟨"/tmp", Except.ok (), true⟩ ⟨2025, 10, 12, 14, 30, 5⟩ "hello"
      ⟨"ApiError", "quota exceeded"⟩ (by decide) rfl
    rw [h]; decide
